import Mathlib

/-
Verification of the two Telegram webhook handlers in this repository.

Variant 1 (celebration rotation bot) and variant 2 (geofenced treasure
hunt bot) are embedded as pure Lean functions.  Externals are modelled
explicitly:
  * JSON decoding of the inbound body is a black box; a handler takes the
    outcome of the decoder as an `Except String Update` (the error case
    carries the decoder message).  Absent JSON fields decode to Go zero
    values, which are spelled out as `zero...` constants.
  * An outbound HTTP call is recorded as an `Action` value; the list of
    actions a handler produces is the sequence of outbound calls it makes.
  * A Go runtime panic (out-of-range slice index) is modelled by an
    `Option` result: `none` means the handler panics before completing.
  * float64 arithmetic of the distance formula is modelled over the real
    numbers.
-/

/-- Outcome of `parseTelegramRequest`: either a decode failure of the JSON
body, or the rejection of a decoded update whose identifier is zero. -/
inductive ParseError where
  | decodeError (msg : String)
  | invalidUpdate
  deriving DecidableEq

/-- Outcome of one outbound HTTP POST as seen by a sender function:
the POST itself can fail, reading the response body can fail, or the body
text is obtained. -/
inductive HttpOutcome where
  | postError (e : String)
  | readError (e : String)
  | success (body : String)
  deriving DecidableEq

/-- Value of a decimal digit string; `none` when empty handling is done by
the caller and a non-digit character appears. -/
def digitsVal (acc : Nat) : List Char → Option Nat
  | [] => some acc
  | c :: r => if c.isDigit then digitsVal (acc * 10 + (c.toNat - 48)) r else none

/-- Model of Go strconv.Atoi on a 64-bit platform: optional sign followed by
at least one digit; a syntax failure yields (0, false), an out-of-range
value is clamped to the int64 boundary with false, otherwise the value with
true.  The Bool is the absence of the Go error. -/
def Atoi (s : String) : Int × Bool :=
  let p : Bool × List Char :=
    match s.data with
    | '-' :: r => (true, r)
    | '+' :: r => (false, r)
    | r => (false, r)
  match p.2 with
  | [] => (0, false)
  | ds =>
    match digitsVal 0 ds with
    | none => (0, false)
    | some n =>
      let v : Int := if p.1 then -(n : Int) else (n : Int)
      if v < -(2 ^ 63) then (-(2 ^ 63), false)
      else if 2 ^ 63 - 1 < v then (2 ^ 63 - 1, false)
      else (v, true)

namespace V1

/-- Audio message metadata (src/unnamed/part_000). -/
structure Audio where
  FileId : String
  Duration : Int
  deriving DecidableEq

/-- Voice is declared in the source as a copy of Audio. -/
abbrev Voice := Audio

/-- Document message metadata. -/
structure Document where
  FileId : String
  FileName : String
  deriving DecidableEq

/-- A Chat in variant 1 carries only the numeric identifier. -/
structure Chat where
  Id : Int
  deriving DecidableEq

/-- Message of variant 1: no location field exists in this variant. -/
structure Message where
  Id : Int
  Text : String
  Chat : Chat
  Audio : Audio
  Voice : Voice
  Document : Document
  deriving DecidableEq

/-- A user as carried inside a callback query. -/
structure User where
  Id : Int
  Username : String
  deriving DecidableEq

/-- Callback query attached to an update. -/
structure CallbackQuerry where
  Id : String
  From : User
  Data : String
  Message : Message
  InlineMessageId : String
  deriving DecidableEq

/-- Inbound update of variant 1. -/
structure Update where
  UpdateId : Int
  Message : Message
  CallbackQuerry : CallbackQuerry
  deriving DecidableEq

/-- Go zero value of Chat, produced by encoding/json for an absent field. -/
def zeroChat : Chat := ⟨0⟩

/-- Go zero value of Audio. -/
def zeroAudio : Audio := ⟨"", 0⟩

/-- Go zero value of Document. -/
def zeroDocument : Document := ⟨"", ""⟩

/-- Go zero value of Message. -/
def zeroMessage : Message := ⟨0, "", zeroChat, zeroAudio, zeroAudio, zeroDocument⟩

/-- Go zero value of User. -/
def zeroUser : User := ⟨0, ""⟩

/-- Go zero value of CallbackQuerry. -/
def zeroCallback : CallbackQuerry := ⟨"", zeroUser, "", zeroMessage, ""⟩

/-- The static celebration phrase list of variant 1. -/
def CELEBRATIONS : List String :=
  ["Твой друг: Дрюня\nНа вопрос: Что бы ты приготовил/а Маше на завтрак?\nОтветил(а): Пельмеши"]

/-- The allow-list of variant 1. -/
def ALLOWED_USERS : List String := ["antonhulikau", "okalitova", "maffina95"]

/-- isAllowed loops over ALLOWED_USERS and returns true on the first equal
entry, false otherwise. -/
def isAllowed (e : String) : Bool := ALLOWED_USERS.any (fun a => a == e)

/-- One outbound call of variant 1: a send with an inline button, or an
edit with an inline button.  The button is the single entry of the inline
keyboard; its callback payload is the last component. -/
inductive Action where
  | sendMessage (chatId : Int) (text : String) (buttonLabel : String) (buttonPayload : String)
  | editMessage (chatId : Int) (messageId : Int) (text : String) (buttonLabel : String) (buttonPayload : String)
  deriving DecidableEq

/-- The next-index computation of sendCelebrateMessage: increment, and wrap
to 0 exactly when the result equals the length of the phrase list. -/
def nextIndex (phrases : List String) (p : Int) : Int :=
  if p + 1 = (phrases.length : Int) then 0 else p + 1

/-- sendCelebrateMessage reads CELEBRATIONS at index p (a Go panic when p
is out of range, modelled as `none`), computes the next index and attaches
it as the button payload of an edit call. -/
def sendCelebrateMessage (chatId : Int) (messageId : Int) (p : Int) : Option Action :=
  if h : 0 ≤ p ∧ p < (CELEBRATIONS.length : Int) then
    some (Action.editMessage chatId messageId
      (CELEBRATIONS.get ⟨p.toNat, by omega⟩)
      "Получить поздравление"
      (toString (nextIndex CELEBRATIONS p)))
  else none

/-- parseTelegramRequest of variant 1: a decode failure is passed through,
a decoded update with identifier 0 is rejected, otherwise the update is
returned unchanged. -/
def parseTelegramRequest (body : Except String Update) : Except ParseError Update :=
  match body with
  | .error e => .error (.decodeError e)
  | .ok update =>
    if update.UpdateId = 0 then .error .invalidUpdate
    else .ok update

/-- The variant 1 handler.  `none` models a runtime panic; `some acts` is
normal completion with the recorded outbound calls. -/
def HandleTelegramWebHook (body : Except String Update) : Option (List Action) :=
  match parseTelegramRequest body with
  | .error _ => some []
  | .ok update =>
    if update.Message.Text = "/start" then
      some [Action.sendMessage update.Message.Chat.Id
        "Привет, нажимай на кнопку получить поздравление и кайфуй!"
        "Получить поздравление" "0"]
    else if isAllowed update.CallbackQuerry.From.Username then
      match sendCelebrateMessage update.CallbackQuerry.Message.Chat.Id
          update.CallbackQuerry.Message.Id (Atoi update.CallbackQuerry.Data).1 with
      | some a => some [a]
      | none => none
    else some []

end V1

namespace V2

/-- Audio message metadata (src/another_example.go). -/
structure Audio where
  FileId : String
  Duration : Int
  deriving DecidableEq

/-- Voice is declared in the source as a copy of Audio. -/
abbrev Voice := Audio

/-- Document message metadata. -/
structure Document where
  FileId : String
  FileName : String
  deriving DecidableEq

/-- A Chat in variant 2 carries the numeric identifier and a username used
as the allow-list key. -/
structure Chat where
  Id : Int
  Username : String
  deriving DecidableEq

/-- A Location in degrees; the float64 fields are modelled as reals. -/
structure Location where
  Longitude : ℝ
  Latitude : ℝ

/-- Message of variant 2: includes an optional Location (Go zero value when
absent). -/
structure Message where
  Id : Int
  Text : String
  Chat : Chat
  Audio : Audio
  Voice : Voice
  Document : Document
  Location : Location

/-- A user as carried inside a callback query. -/
structure User where
  Id : Int
  Username : String
  deriving DecidableEq

/-- Callback query attached to an update. -/
structure CallbackQuerry where
  Id : String
  From : User
  Data : String
  Message : Message
  InlineMessageId : String

/-- Inbound update of variant 2. -/
structure Update where
  UpdateId : Int
  Message : Message
  CallbackQuerry : CallbackQuerry

open Classical

/-- The haversin function of the source: the square of the sine of half the
angle. -/
noncomputable def hsin (theta : ℝ) : ℝ := (Real.sin (theta / 2)) ^ 2

/-- Distance converts both points from degrees to radians and returns the
haversine great-circle distance in meters on a sphere of radius
6378100 m. -/
noncomputable def Distance (l1 l2 : Location) : ℝ :=
  let la1 := l1.Latitude * Real.pi / 180
  let lo1 := l1.Longitude * Real.pi / 180
  let la2 := l2.Latitude * Real.pi / 180
  let lo2 := l2.Longitude * Real.pi / 180
  let r : ℝ := 6378100
  let h := hsin (la2 - la1) + Real.cos la1 * Real.cos la2 * hsin (lo2 - lo1)
  2 * r * Real.arcsin (Real.sqrt h)

/-- The supervisor chat identifier. -/
def ANTON_CHAT_ID : Int := 49208041

/-- The allow-list of variant 2. -/
def ALLOWED_USERS : List String := ["antonhulikau", "sonicfelidae"]

/-- The five static candidate locations. -/
def LOCATIONS : List Location :=
  [⟨11.490981, 48.158967⟩,
   ⟨11.493340, 48.155582⟩,
   ⟨11.596526, 48.143296⟩,
   ⟨11.555078, 48.173194⟩,
   ⟨11.568141, 48.166302⟩]

/-- isAllowed loops over ALLOWED_USERS and returns true on the first equal
entry, false otherwise. -/
def isAllowed (e : String) : Bool := ALLOWED_USERS.any (fun a => a == e)

/-- to_lower_letters wraps strings.ToLower. -/
def to_lower_letters (s : String) : String := s.toLower

/-- One outbound call of variant 2: a plain text send or a location send. -/
inductive Action where
  | sendText (chatId : Int) (text : String)
  | sendLocation (chatId : Int) (l : Location)

/-- The geofence loop of the location branch: ranges over the candidate
list with its running index t, and for every candidate within 2000 m of the
supplied location emits the check-this-place text, the supervisor
notification carrying the index, and the candidate coordinates; the Bool is
the `found` flag, set when at least one candidate matched. -/
noncomputable def hintLoop (chatId : Int) (userLoc : Location) : Nat → List Location → List Action × Bool
  | _, [] => ([], false)
  | t, l :: rest =>
    let r := hintLoop chatId userLoc (t + 1) rest
    if Distance l userLoc < 2000 then
      (Action.sendText chatId "Проверь это место" ::
       Action.sendText ANTON_CHAT_ID ("Соня проверяет " ++ toString t ++ "!") ::
       Action.sendLocation chatId l :: r.1, true)
    else r

/-- parseTelegramRequest of variant 2: a decode failure is passed through,
a decoded update with identifier 0 is rejected, otherwise the update is
returned unchanged. -/
def parseTelegramRequest (body : Except String Update) : Except ParseError Update :=
  match body with
  | .error e => .error (.decodeError e)
  | .ok update =>
    if update.UpdateId = 0 then .error .invalidUpdate
    else .ok update

/-- The variant 2 handler, returning in order the outbound calls it makes.
The allow-list gate comes first; then /start, /unlock, the secret word, the
location branch, and the rejection branch, first match winning. -/
noncomputable def HandleTelegramWebHook (body : Except String Update) : List Action :=
  match parseTelegramRequest body with
  | .error _ => []
  | .ok update =>
    if !(isAllowed update.Message.Chat.Username) then []
    else if update.Message.Text = "/start" then
      [Action.sendText update.Message.Chat.Id
        "Присылай мне свою локацию. Если ты будешь относительно близко к расположению подсказки, я дам тебе точные координаты!\nУ меня есть так же команда /unlock =)",
       Action.sendText ANTON_CHAT_ID "Соня начала искать локации!"]
    else if update.Message.Text = "/unlock" then
      [Action.sendText update.Message.Chat.Id "Пароль?"]
    else if to_lower_letters update.Message.Text = "afsio" then
      [Action.sendText update.Message.Chat.Id
        "Молодец! Все верно!\nВ качестве приза могли прийти, но не пришли:\n1. Поездка в Австрию на викенд. Но она почему-то вводит локдаун.\n2. Поход на Щелкунчика. Но кто-то прощелкал все полимеры =(.\n3. Карты с покемонами на испанском. Но они у тебя уже есть.\n\n\n\nНо зато пришел: бессрочный recharge day on demand. Предложение отвезти тебя, куда ты захочешь, на 1 день. Используй его, когда тебе вздумается.",
       Action.sendText ANTON_CHAT_ID "Соня справилась!"]
    else if update.Message.Location.Latitude > 0 then
      let r := hintLoop update.Message.Chat.Id update.Message.Location 0 LOCATIONS
      if r.2 then r.1
      else r.1 ++ [Action.sendText update.Message.Chat.Id "Вблизи нет подсказок"]
    else
      [Action.sendText update.Message.Chat.Id "Этот пароль не подходит =(",
       Action.sendText ANTON_CHAT_ID ("Соня ввела " ++ update.Message.Text ++ "!")]

/-- Return behavior of sendTextMessage as a function of the HTTP outcome.
The source returns the POST error on a POST failure; on a body-read
failure it returns the variable err, which is necessarily nil at that
point, so no error reaches the caller; on success it returns the body text
unchanged. -/
def sendTextMessage (chatId : Int) (text : String) (o : HttpOutcome) : String × Option String :=
  match o with
  | .postError e => ("", some e)
  | .readError _ => ("", none)
  | .success body => (body, none)

/-- Return behavior of sendLocationMessage as a function of the HTTP
outcome; the source body is identical to sendTextMessage, including the
nil error returned on a body-read failure. -/
def sendLocationMessage (chatId : Int) (l : Location) (o : HttpOutcome) : String × Option String :=
  match o with
  | .postError e => ("", some e)
  | .readError _ => ("", none)
  | .success body => (body, none)

/-- Go zero value of Chat, produced by encoding/json for an absent field. -/
def zeroChat : Chat := ⟨0, ""⟩

/-- Go zero value of Audio. -/
def zeroAudio : Audio := ⟨"", 0⟩

/-- Go zero value of Document. -/
def zeroDocument : Document := ⟨"", ""⟩

/-- Go zero value of Location. -/
def zeroLocation : Location := ⟨0, 0⟩

/-- Go zero value of Message. -/
def zeroMessage : Message := ⟨0, "", zeroChat, zeroAudio, zeroAudio, zeroDocument, zeroLocation⟩

/-- Go zero value of User. -/
def zeroUser : User := ⟨0, ""⟩

/-- Go zero value of CallbackQuerry. -/
def zeroCallback : CallbackQuerry := ⟨"", zeroUser, "", zeroMessage, ""⟩

/-- Spec description of the geofence fan-out, written independently of the
loop: one block per candidate in list order, each present exactly when that
candidate is within 2000 m, followed by the no-hints text exactly when no
candidate is within 2000 m. -/
noncomputable def geofenceSpecActions (chatId : Int) (userLoc : Location) : List Action :=
  (if Distance ⟨11.490981, 48.158967⟩ userLoc < 2000 then
    [Action.sendText chatId "Проверь это место",
     Action.sendText ANTON_CHAT_ID "Соня проверяет 0!",
     Action.sendLocation chatId ⟨11.490981, 48.158967⟩] else []) ++
  (if Distance ⟨11.493340, 48.155582⟩ userLoc < 2000 then
    [Action.sendText chatId "Проверь это место",
     Action.sendText ANTON_CHAT_ID "Соня проверяет 1!",
     Action.sendLocation chatId ⟨11.493340, 48.155582⟩] else []) ++
  (if Distance ⟨11.596526, 48.143296⟩ userLoc < 2000 then
    [Action.sendText chatId "Проверь это место",
     Action.sendText ANTON_CHAT_ID "Соня проверяет 2!",
     Action.sendLocation chatId ⟨11.596526, 48.143296⟩] else []) ++
  (if Distance ⟨11.555078, 48.173194⟩ userLoc < 2000 then
    [Action.sendText chatId "Проверь это место",
     Action.sendText ANTON_CHAT_ID "Соня проверяет 3!",
     Action.sendLocation chatId ⟨11.555078, 48.173194⟩] else []) ++
  (if Distance ⟨11.568141, 48.166302⟩ userLoc < 2000 then
    [Action.sendText chatId "Проверь это место",
     Action.sendText ANTON_CHAT_ID "Соня проверяет 4!",
     Action.sendLocation chatId ⟨11.568141, 48.166302⟩] else []) ++
  (if Distance ⟨11.490981, 48.158967⟩ userLoc < 2000 ∨
      Distance ⟨11.493340, 48.155582⟩ userLoc < 2000 ∨
      Distance ⟨11.596526, 48.143296⟩ userLoc < 2000 ∨
      Distance ⟨11.555078, 48.173194⟩ userLoc < 2000 ∨
      Distance ⟨11.568141, 48.166302⟩ userLoc < 2000 then []
   else [Action.sendText chatId "Вблизи нет подсказок"])

end V2


namespace V1

/-- nextIndex agrees with the modular increment on indices in range. -/
lemma nextIndex_eq_mod (phrases : List String) (p : Int)
    (h0 : 0 ≤ p) (h1 : p < (phrases.length : Int)) :
    nextIndex phrases p = (p + 1) % (phrases.length : Int) := by
  unfold nextIndex
  by_cases h : p + 1 = (phrases.length : Int)
  · rw [if_pos h, h, Int.emod_self]
  · rw [if_neg h, Int.emod_eq_of_lt (by omega) (by omega)]

/-- Iterating nextIndex k times from an in-range index lands on the
modular sum. -/
lemma nextIndex_iterate (phrases : List String) (p : Int)
    (h0 : 0 ≤ p) (h1 : p < (phrases.length : Int)) :
    ∀ k : ℕ, (nextIndex phrases)^[k] p = (p + k) % (phrases.length : Int) := by
  intro k
  induction k with
  | zero => simpa using (Int.emod_eq_of_lt h0 h1).symm
  | succ k ih =>
    have hlen : 0 < (phrases.length : Int) := by omega
    have hm0 : 0 ≤ (p + (k : Int)) % (phrases.length : Int) := Int.emod_nonneg _ (by omega)
    have hm1 : (p + (k : Int)) % (phrases.length : Int) < (phrases.length : Int) :=
      Int.emod_lt_of_pos _ hlen
    rw [Function.iterate_succ_apply', ih, nextIndex_eq_mod _ _ hm0 hm1]
    have step : ((p + (k : Int)) % (phrases.length : Int) + 1) % (phrases.length : Int)
        = ((p + (k : Int)) + 1) % (phrases.length : Int) := by
      conv_lhs => rw [Int.add_emod]
      conv_rhs => rw [Int.add_emod]
      rw [Int.emod_emod_of_dvd _ dvd_rfl]
    rw [step]
    push_cast
    ring_nf

end V1

namespace V2

/-- isAllowed is membership in the allow-list. -/
lemma isAllowed_eq_true_iff (e : String) : isAllowed e = true ↔ e ∈ ALLOWED_USERS := by
  simp [isAllowed, ALLOWED_USERS]
  tauto

/-- The handler makes no outbound call when the chat username is outside
the allow-list. -/
lemma handler_skips_disallowed (u : Update) (hid : u.UpdateId ≠ 0)
    (h : u.Message.Chat.Username ∉ ALLOWED_USERS) :
    HandleTelegramWebHook (.ok u) = [] := by
  cases hb : isAllowed u.Message.Chat.Username with
  | true => exact absurd ((isAllowed_eq_true_iff _).1 hb) h
  | false => simp [HandleTelegramWebHook, parseTelegramRequest, hid, hb]

end V2

/-- Claim C5: in both variants, the parser rejects every decoded update
whose identifier equals 0 with the invalid-update error, accepts every
decoded update with a non-zero identifier unchanged, and turns a decode
failure into a decode error. -/
theorem c5_update_id_gate :
    (∀ e : String, V1.parseTelegramRequest (.error e) = .error (.decodeError e)) ∧
    (∀ u : V1.Update, u.UpdateId = 0 → V1.parseTelegramRequest (.ok u) = .error .invalidUpdate) ∧
    (∀ u : V1.Update, u.UpdateId ≠ 0 → V1.parseTelegramRequest (.ok u) = .ok u) ∧
    (∀ e : String, V2.parseTelegramRequest (.error e) = .error (.decodeError e)) ∧
    (∀ u : V2.Update, u.UpdateId = 0 → V2.parseTelegramRequest (.ok u) = .error .invalidUpdate) ∧
    (∀ u : V2.Update, u.UpdateId ≠ 0 → V2.parseTelegramRequest (.ok u) = .ok u) := by
  refine ⟨fun e => rfl, fun u h => ?_, fun u h => ?_, fun e => rfl, fun u h => ?_, fun u h => ?_⟩ <;>
    simp [V1.parseTelegramRequest, V2.parseTelegramRequest, h]

/-- Witness for C5 at concrete updates with identifiers 0 and 5. -/
theorem c5_update_id_gate_witness :
    V1.parseTelegramRequest (.ok ⟨0, V1.zeroMessage, V1.zeroCallback⟩) = .error .invalidUpdate ∧
    V1.parseTelegramRequest (.ok ⟨5, V1.zeroMessage, V1.zeroCallback⟩) =
      .ok ⟨5, V1.zeroMessage, V1.zeroCallback⟩ ∧
    V2.parseTelegramRequest (.ok ⟨0, V2.zeroMessage, V2.zeroCallback⟩) = .error .invalidUpdate ∧
    V2.parseTelegramRequest (.ok ⟨5, V2.zeroMessage, V2.zeroCallback⟩) =
      .ok ⟨5, V2.zeroMessage, V2.zeroCallback⟩ := by
  obtain ⟨h1, h2, h3, h4, h5, h6⟩ := c5_update_id_gate
  exact ⟨h2 _ rfl, h3 _ (by decide), h5 _ rfl, h6 _ (by decide)⟩

/-- Claim C7 (code bug evaluation): each sender returns the POST error on
a POST failure and the body unchanged on success; but on a body-read
failure it returns no error at all (the nil POST error is returned in
place of the read error), so the read failure is silently reported as
success with an empty body. -/
theorem c7_sender_return_eval :
    (∀ (c : Int) (t : String) (e : String),
      V2.sendTextMessage c t (.postError e) = ("", some e)) ∧
    (∀ (c : Int) (t : String) (e : String),
      V2.sendTextMessage c t (.readError e) = ("", none)) ∧
    (∀ (c : Int) (t : String) (b : String),
      V2.sendTextMessage c t (.success b) = (b, none)) ∧
    (∀ (c : Int) (l : V2.Location) (e : String),
      V2.sendLocationMessage c l (.postError e) = ("", some e)) ∧
    (∀ (c : Int) (l : V2.Location) (e : String),
      V2.sendLocationMessage c l (.readError e) = ("", none)) ∧
    (∀ (c : Int) (l : V2.Location) (b : String),
      V2.sendLocationMessage c l (.success b) = (b, none)) := by
  refine ⟨?_, ?_, ?_, ?_, ?_, ?_⟩ <;> intro x y z <;> rfl

/-- Claim C3: a successfully parsed variant 2 update whose message chat
username is outside the allow-list produces zero outbound calls. -/
theorem c3_allowlist_gate (u : V2.Update) (hid : u.UpdateId ≠ 0)
    (h : u.Message.Chat.Username ∉ V2.ALLOWED_USERS) :
    V2.HandleTelegramWebHook (.ok u) = [] :=
  V2.handler_skips_disallowed u hid h

/-- Witness for C3 at a concrete update with username mallory. -/
theorem c3_allowlist_gate_witness :
    V2.HandleTelegramWebHook (.ok ⟨1,
      { V2.zeroMessage with Chat := ⟨42, "mallory"⟩ }, V2.zeroCallback⟩) = [] :=
  c3_allowlist_gate _ (by decide) (by decide)

/-- Claim C10: a variant 2 update carrying only a callback event and no
message decodes the message to its zero value, whose empty chat username
is outside the allow-list, so the handler makes zero outbound calls. -/
theorem c10_callback_only_gate (id : Int) (cb : V2.CallbackQuerry) (hid : id ≠ 0) :
    V2.HandleTelegramWebHook (.ok ⟨id, V2.zeroMessage, cb⟩) = [] :=
  V2.handler_skips_disallowed _ hid (show ("" : String) ∉ V2.ALLOWED_USERS by decide)

/-- Witness for C10 at identifier 1 and the zero callback. -/
theorem c10_callback_only_gate_witness :
    V2.HandleTelegramWebHook (.ok ⟨1, V2.zeroMessage, V2.zeroCallback⟩) = [] :=
  c10_callback_only_gate 1 V2.zeroCallback (by decide)

/-- Claim C6: on an index p in range, the next-index computation equals
the modular increment, every iterate of it stays in range, and iterating
it length-many times returns to the starting index. -/
theorem c6_round_robin (phrases : List String) (p : Int)
    (h0 : 0 ≤ p) (h1 : p < (phrases.length : Int)) :
    V1.nextIndex phrases p = (p + 1) % (phrases.length : Int) ∧
    (∀ k : ℕ, 0 ≤ (V1.nextIndex phrases)^[k] p ∧
      (V1.nextIndex phrases)^[k] p < (phrases.length : Int)) ∧
    (V1.nextIndex phrases)^[phrases.length] p = p := by
  refine ⟨V1.nextIndex_eq_mod _ _ h0 h1, fun k => ?_, ?_⟩
  · rw [V1.nextIndex_iterate _ _ h0 h1 k]
    exact ⟨Int.emod_nonneg _ (by omega), Int.emod_lt_of_pos _ (by omega)⟩
  · rw [V1.nextIndex_iterate _ _ h0 h1 _]
    have h2 : (p + (phrases.length : Int)) % (phrases.length : Int)
        = p % (phrases.length : Int) := by
      simpa using Int.add_mul_emod_self_left (a := p) (b := (phrases.length : Int)) (c := 1)
    rw [h2, Int.emod_eq_of_lt h0 h1]

/-- Witness for C6 on the variant 1 phrase list at index 0. -/
theorem c6_round_robin_witness :
    V1.nextIndex V1.CELEBRATIONS 0 = (0 + 1) % (V1.CELEBRATIONS.length : Int) ∧
    (∀ k : ℕ, 0 ≤ (V1.nextIndex V1.CELEBRATIONS)^[k] 0 ∧
      (V1.nextIndex V1.CELEBRATIONS)^[k] 0 < (V1.CELEBRATIONS.length : Int)) ∧
    (V1.nextIndex V1.CELEBRATIONS)^[V1.CELEBRATIONS.length] 0 = 0 :=
  c6_round_robin V1.CELEBRATIONS 0 (by decide) (by decide)

/-- Claim C8: in variant 1, a callback payload that is not a decimal
integer numeral makes Atoi report a failure with value 0; the error is
ignored, dispatch proceeds with default index 0, the edit shows the phrase
at index 0 and re-attaches the button with the next-index payload 0. -/
theorem c8_default_index (u : V1.Update)
    (hid : u.UpdateId ≠ 0)
    (hstart : u.Message.Text ≠ "/start")
    (hallow : V1.isAllowed u.CallbackQuerry.From.Username = true)
    (hdata : Atoi u.CallbackQuerry.Data = (0, false)) :
    V1.HandleTelegramWebHook (.ok u) =
      some [V1.Action.editMessage u.CallbackQuerry.Message.Chat.Id u.CallbackQuerry.Message.Id
        (V1.CELEBRATIONS.getD 0 "") "Получить поздравление" "0"] := by
  have hcel : ∀ c m : Int, V1.sendCelebrateMessage c m 0 =
      some (V1.Action.editMessage c m (V1.CELEBRATIONS.getD 0 "")
        "Получить поздравление" "0") := fun c m => rfl
  simp [V1.HandleTelegramWebHook, V1.parseTelegramRequest, hid, hstart, hallow, hdata, hcel]

/-- Witness for C8 at a concrete update with payload abc. -/
theorem c8_default_index_witness :
    V1.HandleTelegramWebHook (.ok ⟨1, V1.zeroMessage,
      { V1.zeroCallback with
        From := ⟨7, "okalitova"⟩
        Data := "abc"
        Message := { V1.zeroMessage with Id := 3, Chat := ⟨5⟩ } }⟩) =
      some [V1.Action.editMessage 5 3
        (V1.CELEBRATIONS.getD 0 "") "Получить поздравление" "0"] :=
  c8_default_index _ (by decide) (by decide) (by decide) (by decide)

/-- Counterexample to C4 as stated: an allowed user with callback payload
1 drives the phrase lookup out of bounds (the list has length 1) and the
variant 1 handler panics instead of running to completion. -/
theorem c4_counterexample :
    V1.HandleTelegramWebHook (.ok ⟨1, V1.zeroMessage,
      { V1.zeroCallback with From := ⟨7, "okalitova"⟩, Data := "1" }⟩) = none := by
  decide

/-- Claim C4 amended: variant 1 handling runs to completion whenever the
parsed callback index lies within the bounds of the phrase list, which
covers every non-numeric payload (parsed as 0) and every payload the bot
itself attaches to a button. -/
theorem c4_no_fatal_amended (body : Except String V1.Update)
    (h : ∀ u : V1.Update, body = .ok u →
      0 ≤ (Atoi u.CallbackQuerry.Data).1 ∧
      (Atoi u.CallbackQuerry.Data).1 < (V1.CELEBRATIONS.length : Int)) :
    V1.HandleTelegramWebHook body ≠ none := by
  match body with
  | .error e => simp [V1.HandleTelegramWebHook, V1.parseTelegramRequest]
  | .ok u =>
    have hu := h u rfl
    by_cases hid : u.UpdateId = 0
    · simp [V1.HandleTelegramWebHook, V1.parseTelegramRequest, hid]
    · by_cases hstart : u.Message.Text = "/start"
      · simp [V1.HandleTelegramWebHook, V1.parseTelegramRequest, hid, hstart]
      · by_cases hallow : V1.isAllowed u.CallbackQuerry.From.Username
        · simp [V1.HandleTelegramWebHook, V1.parseTelegramRequest, hid, hstart, hallow,
            V1.sendCelebrateMessage, hu]
        · simp [V1.HandleTelegramWebHook, V1.parseTelegramRequest, hid, hstart, hallow]

/-- Witness for the amended C4 at a concrete update with payload 0. -/
theorem c4_no_fatal_amended_witness :
    V1.HandleTelegramWebHook (.ok ⟨1, V1.zeroMessage,
      { V1.zeroCallback with From := ⟨7, "okalitova"⟩, Data := "0" }⟩) ≠ none :=
  c4_no_fatal_amended _ (by intro u hu; injection hu with h2; subst h2; decide)

/-- arcsin of the square root of a squared sine collapses to the angle on
the first quadrant. -/
lemma arcsin_sqrt_sq_sin (y : ℝ) (h0 : 0 ≤ y) (h1 : y ≤ Real.pi / 2) :
    Real.arcsin (Real.sqrt ((Real.sin y) ^ 2)) = y := by
  have hpi := Real.pi_pos
  rw [Real.sqrt_sq (Real.sin_nonneg_of_nonneg_of_le_pi h0 (by linarith))]
  exact Real.arcsin_sin (by linarith) h1

namespace V2

/-- The distance from a point to itself is zero. -/
lemma Distance_self (l : Location) : Distance l l = 0 := by
  simp [Distance, hsin]

/-- The distance function is symmetric in its two points. -/
lemma Distance_symm (a b : Location) : Distance a b = Distance b a := by
  unfold Distance hsin
  dsimp only
  have h1 : (a.Latitude * Real.pi / 180 - b.Latitude * Real.pi / 180) / 2
      = -((b.Latitude * Real.pi / 180 - a.Latitude * Real.pi / 180) / 2) := by ring
  have h2 : (a.Longitude * Real.pi / 180 - b.Longitude * Real.pi / 180) / 2
      = -((b.Longitude * Real.pi / 180 - a.Longitude * Real.pi / 180) / 2) := by ring
  rw [h1, h2, Real.sin_neg, Real.sin_neg]
  ring_nf

/-- Closed form of the distance between two points on the same meridian
one degree of latitude apart. -/
lemma Distance_one_degree :
    Distance ⟨11, 48⟩ ⟨11, 49⟩ = 2 * 6378100 * (Real.pi / 360) := by
  have hpi := Real.pi_pos
  unfold Distance hsin
  norm_num
  have h1 : (49 * Real.pi / 180 - 48 * Real.pi / 180) / 2 = Real.pi / 360 := by ring
  rw [h1, arcsin_sqrt_sq_sin (Real.pi / 360) (by linarith) (by linarith)]

/-- A point on the equator whose distance to the origin point is exactly
2000 m. -/
noncomputable def probe2000 : Location := ⟨360000 / (6378100 * Real.pi), 0⟩

/-- The probe point lies exactly on the 2000 m circle around the origin
point. -/
lemma Distance_probe2000 : Distance probe2000 ⟨0, 0⟩ = 2000 := by
  have hpi := Real.pi_pos
  have hpi3 := Real.pi_gt_three
  unfold Distance hsin probe2000
  norm_num
  have h1 : -(360000 / (6378100 * Real.pi) * Real.pi / 180) / 2 = -(1000 / 6378100) := by
    field_simp
    ring
  rw [h1, Real.sin_neg, neg_sq]
  rw [arcsin_sqrt_sq_sin (1000 / 6378100) (by norm_num) (by linarith)]
  norm_num

/-- A location send appears in the geofence loop output exactly for the
candidates strictly within 2000 m of the supplied location. -/
lemma sendLocation_mem_hintLoop (chatId : Int) (userLoc l : Location) :
    ∀ (t : Nat) (ls : List Location),
      Action.sendLocation chatId l ∈ (hintLoop chatId userLoc t ls).1 ↔
        l ∈ ls ∧ Distance l userLoc < 2000 := by
  intro t ls
  induction ls generalizing t with
  | nil => simp [hintLoop]
  | cons a rest ih =>
    by_cases d : Distance a userLoc < 2000
    · simp only [hintLoop, if_pos d, List.mem_cons]
      constructor
      · intro h
        rcases h with h | h | h | h
        · simp at h
        · simp at h
        · injection h with h1 h2
          subst h2
          exact ⟨Or.inl rfl, d⟩
        · obtain ⟨hm, hd⟩ := (ih (t + 1)).1 h
          exact ⟨Or.inr hm, hd⟩
      · rintro ⟨ha | hm, hd⟩
        · subst ha
          exact Or.inr (Or.inr (Or.inl rfl))
        · exact Or.inr (Or.inr (Or.inr ((ih (t + 1)).2 ⟨hm, hd⟩)))
    · simp only [hintLoop, if_neg d, List.mem_cons]
      constructor
      · intro h
        obtain ⟨hm, hd⟩ := (ih (t + 1)).1 h
        exact ⟨Or.inr hm, hd⟩
      · rintro ⟨ha | hm, hd⟩
        · subst ha
          exact absurd hd d
        · exact (ih (t + 1)).2 ⟨hm, hd⟩

end V2

/-- Counterexample to C2 as stated: with the source radius of 6378100 m,
two points one degree of latitude apart are 6378100·π/180 ≈ 111319 m
apart, which is not within 50 m of 111195 m. -/
theorem c2_haversine_counterexample :
    ¬ (|V2.Distance ⟨11, 48⟩ ⟨11, 49⟩ - 111195| ≤ 50) := by
  rw [V2.Distance_one_degree, abs_le]
  push_neg
  intro h
  have := Real.pi_gt_d6
  nlinarith

/-- Claim C2 amended: Distance is exactly the haversine formula with
radius 6378100 m; it vanishes on equal points and is symmetric; and two
points one degree of latitude apart are within 50 m of 111319 m (the arc
length for this radius), not of 111195 m. -/
theorem c2_haversine_amended :
    (∀ l1 l2 : V2.Location, V2.Distance l1 l2 =
      2 * 6378100 * Real.arcsin (Real.sqrt
        ((Real.sin ((l2.Latitude * Real.pi / 180 - l1.Latitude * Real.pi / 180) / 2)) ^ 2 +
         Real.cos (l1.Latitude * Real.pi / 180) * Real.cos (l2.Latitude * Real.pi / 180) *
         (Real.sin ((l2.Longitude * Real.pi / 180 - l1.Longitude * Real.pi / 180) / 2)) ^ 2))) ∧
    (∀ p : V2.Location, V2.Distance p p = 0) ∧
    (∀ a b : V2.Location, V2.Distance a b = V2.Distance b a) ∧
    |V2.Distance ⟨11, 48⟩ ⟨11, 49⟩ - 111319| < 50 := by
  refine ⟨fun l1 l2 => rfl, V2.Distance_self, V2.Distance_symm, ?_⟩
  rw [V2.Distance_one_degree, abs_lt]
  have h1 := Real.pi_gt_d6
  have h2 := Real.pi_lt_d6
  constructor <;> nlinarith

/-- Claim C9: the 2000 m threshold is exclusive: a candidate at distance
exactly 2000 m is never sent, and a location send occurs exactly for the
candidates at strictly smaller distance. -/
theorem c9_threshold_strict (chatId : Int) (userLoc l : V2.Location) :
    (V2.Distance l userLoc = 2000 →
      V2.Action.sendLocation chatId l ∉ (V2.hintLoop chatId userLoc 0 V2.LOCATIONS).1) ∧
    (V2.Action.sendLocation chatId l ∈ (V2.hintLoop chatId userLoc 0 V2.LOCATIONS).1 ↔
      l ∈ V2.LOCATIONS ∧ V2.Distance l userLoc < 2000) := by
  constructor
  · intro h2000 hmem
    have hlt := ((V2.sendLocation_mem_hintLoop chatId userLoc l 0 V2.LOCATIONS).1 hmem).2
    rw [h2000] at hlt
    exact absurd hlt (lt_irrefl 2000)
  · exact V2.sendLocation_mem_hintLoop chatId userLoc l 0 V2.LOCATIONS

/-- Witness for C9: the equator probe at distance exactly 2000 m is not
sent, and a candidate at distance 0 from itself is sent. -/
theorem c9_threshold_strict_witness :
    (V2.Action.sendLocation 7 V2.probe2000 ∉ (V2.hintLoop 7 ⟨0, 0⟩ 0 V2.LOCATIONS).1) ∧
    (V2.Action.sendLocation 7 ⟨11.596526, 48.143296⟩ ∈
      (V2.hintLoop 7 ⟨11.596526, 48.143296⟩ 0 V2.LOCATIONS).1) := by
  constructor
  · exact (c9_threshold_strict 7 ⟨0, 0⟩ V2.probe2000).1 V2.Distance_probe2000
  · exact (c9_threshold_strict 7 ⟨11.596526, 48.143296⟩ ⟨11.596526, 48.143296⟩).2.mpr
      ⟨by simp [V2.LOCATIONS], by rw [V2.Distance_self]; norm_num⟩

/-- Claim C1: for an allowed chat whose message text is none of /start,
/unlock or the secret word but whose location has positive latitude, the
handler output is exactly the spec fan-out: all five candidates examined
in order with no early exit, each candidate within 2000 m contributing the
check-this-place text, the supervisor notification with its list index and
its coordinates, and a single no-hints text exactly when no candidate is
within 2000 m. -/
theorem c1_geofence_fanout (u : V2.Update)
    (hid : u.UpdateId ≠ 0)
    (hallow : u.Message.Chat.Username ∈ V2.ALLOWED_USERS)
    (h1 : u.Message.Text ≠ "/start")
    (h2 : u.Message.Text ≠ "/unlock")
    (h3 : V2.to_lower_letters u.Message.Text ≠ "afsio")
    (hlat : u.Message.Location.Latitude > 0) :
    V2.HandleTelegramWebHook (.ok u) =
      V2.geofenceSpecActions u.Message.Chat.Id u.Message.Location := by
  have hb : V2.isAllowed u.Message.Chat.Username = true :=
    (V2.isAllowed_eq_true_iff _).2 hallow
  have s0 : ("Соня проверяет " ++ toString (0 : Nat) ++ "!") = "Соня проверяет 0!" := rfl
  have s1 : ("Соня проверяет " ++ toString (1 : Nat) ++ "!") = "Соня проверяет 1!" := rfl
  have s2 : ("Соня проверяет " ++ toString (2 : Nat) ++ "!") = "Соня проверяет 2!" := rfl
  have s3 : ("Соня проверяет " ++ toString (3 : Nat) ++ "!") = "Соня проверяет 3!" := rfl
  have s4 : ("Соня проверяет " ++ toString (4 : Nat) ++ "!") = "Соня проверяет 4!" := rfl
  by_cases d0 : V2.Distance ⟨11.490981, 48.158967⟩ u.Message.Location < 2000 <;>
  by_cases d1 : V2.Distance ⟨11.493340, 48.155582⟩ u.Message.Location < 2000 <;>
  by_cases d2 : V2.Distance ⟨11.596526, 48.143296⟩ u.Message.Location < 2000 <;>
  by_cases d3 : V2.Distance ⟨11.555078, 48.173194⟩ u.Message.Location < 2000 <;>
  by_cases d4 : V2.Distance ⟨11.568141, 48.166302⟩ u.Message.Location < 2000 <;>
  simp [V2.HandleTelegramWebHook, V2.parseTelegramRequest, hid, hb, h1, h2, h3, hlat,
    V2.hintLoop, V2.LOCATIONS, V2.geofenceSpecActions, d0, d1, d2, d3, d4,
    s0, s1, s2, s3, s4]

/-- Witness for C1 at a concrete allowed update probing from the third
candidate location. -/
theorem c1_geofence_fanout_witness :
    V2.HandleTelegramWebHook (.ok ⟨1,
      ⟨10, "somewhere", ⟨42, "antonhulikau"⟩, V2.zeroAudio, V2.zeroAudio,
        V2.zeroDocument, ⟨11.596526, 48.143296⟩⟩, V2.zeroCallback⟩) =
      V2.geofenceSpecActions 42 ⟨11.596526, 48.143296⟩ :=
  c1_geofence_fanout _ (by decide) (by decide) (by decide) (by decide)
    (show V2.to_lower_letters "somewhere" ≠ "afsio" by
      show String.map Char.toLower "somewhere" ≠ "afsio"
      rw [String.map_eq]
      decide)
    (by norm_num)
